import Mathlib

/-!
Verification of the `vina_pipeline` repository: a shallow embedding of
`calculate_docking_metrics.py` (Vina log parsing, pKi conversion, ligand
efficiency ratios, CSV row formatting) and of the data-cleaning stage of
`6_plot_results.py`, together with theorems settling the spec claims.

Conventions of the embedding:
* strings from the Python code are `List Char`;
* a text file is `Option (List (List Char))`: `none` models a missing file
  (`FileNotFoundError`), `some lines` models its content split into lines
  (newline characters are not part of a line);
* Python floats are modelled as exact real numbers (`ℝ`); the affinity value
  parsed from the log is kept as the decimal literal that was matched
  (`DecNum`, an executable structure) and interpreted into `ℝ` where the code
  does arithmetic on it;
* `None` is `Option.none`; fallible computations return `Option`;
* the RDKit ligand lookup (`find_ligand_file` + `load_molecule` +
  `calculate_ligand_metrics`, which depend on the filesystem and the external
  RDKit library) is modelled as an oracle `env : List Char → LigandDesc`
  mapping a ligand name to the descriptor record the library step produces;
  a failed load is the all-`none` record, exactly what
  `calculate_ligand_metrics(None)` returns.
-/

namespace Vina

/-- The whitespace characters of Python's `\s` / `str.strip` (ASCII). -/
def isSpaceCh (c : Char) : Bool :=
  c = ' ' || c = '\t' || c = '\n' || c = '\r' || c = '\x0b' || c = '\x0c'

/-- ASCII decimal digit test (`\d` for ASCII input). -/
def isDigitCh (c : Char) : Bool :=
  '0' ≤ c && c ≤ '9'

/-- First-occurrence search: the suffix of `s` situated right after the first
occurrence of `pat`, or `none` if `pat` does not occur in `s`.  This is the
reach of `re.search` for a pattern starting with the literal `pat`. -/
def dropAfterFirst (pat : List Char) : List Char → Option (List Char)
  | [] => if pat.isEmpty then some [] else none
  | c :: t =>
    if pat.isPrefixOf (c :: t) then some ((c :: t).drop pat.length)
    else dropAfterFirst pat t

/-- Index just past the last occurrence of `pat` in `s` (`none` if absent).
Used to model the greedy `.*\.pdbqt` capture, which extends to the end of the
last `.pdbqt` occurrence. -/
def lastEnd (pat : List Char) : List Char → Option Nat
  | [] => if pat.isEmpty then some 0 else none
  | c :: t =>
    match lastEnd pat t with
    | some n => some (n + 1)
    | none => if pat.isPrefixOf (c :: t) then some pat.length else none

/-- The characters of the literal `".pdbqt"`. -/
def pdbqtPat : List Char := ['.', 'p', 'd', 'b', 'q', 't']

/-- Fuel-driven worker for `removePdbqt`; the fuel bounds the number of steps
(each step consumes at least one character, so `s.length` fuel suffices). -/
def removePdbqtGo : ℕ → List Char → List Char
  | _, [] => []
  | 0, s => s
  | n + 1, c :: t =>
    if pdbqtPat.isPrefixOf (c :: t) then removePdbqtGo n (t.drop 5)
    else c :: removePdbqtGo n t

/-- Model of `s.replace(".pdbqt", "")`: removes every (left-to-right, non-overlapping)
occurrence of `".pdbqt"`. -/
def removePdbqt (s : List Char) : List Char :=
  removePdbqtGo s.length s

/-- Python `str.strip()` (whitespace on both ends). -/
def stripCh (s : List Char) : List Char :=
  ((s.dropWhile isSpaceCh).reverse.dropWhile isSpaceCh).reverse

/-- Model of `os.path.basename` on a POSIX path: the part after the last `'/'`. -/
def basenameCh (p : List Char) : List Char :=
  (p.reverse.takeWhile (fun c => c ≠ '/')).reverse

/-- Model of `os.path.dirname` on a POSIX path: everything up to the last `'/'`,
with trailing slashes stripped unless the head is empty or all slashes. -/
def dirnameCh (p : List Char) : List Char :=
  let b := basenameCh p
  let head := p.take (p.length - b.length)
  if head.isEmpty || head.all (fun c => c = '/') then head
  else (head.reverse.dropWhile (fun c => c = '/')).reverse

/-- Python `s.split('_')` (always non-empty; `""` splits to `[""]`). -/
def splitOnUnderscore : List Char → List (List Char)
  | [] => [[]]
  | c :: t =>
    let r := splitOnUnderscore t
    if c = '_' then [] :: r
    else
      match r with
      | [] => [[c]]
      | h :: t' => (c :: h) :: t'

/-- Model of `re.search` for `PAT + r"\s*(.*\.pdbqt)"` followed by the code's
`os.path.basename(group(1).strip()).replace(".pdbqt", "")`:
the extracted name, or `none` when the pattern does not match the line. -/
def matchNamePat (pat : List Char) (line : List Char) : Option (List Char) :=
  match dropAfterFirst pat line with
  | none => none
  | some rest =>
    let body := rest.dropWhile isSpaceCh
    match lastEnd pdbqtPat body with
    | none => none
    | some n => some (removePdbqt (basenameCh (stripCh (body.take n))))

/-- The receptor line matcher: `re.compile(r"Rigid receptor:\s*(.*\.pdbqt)")`
searched in a line, then reduced to the extracted name. -/
def matchReceptor (line : List Char) : Option (List Char) :=
  matchNamePat "Rigid receptor:".toList line

/-- The ligand line matcher: `re.compile(r"Ligand:\s*(.*\.pdbqt)")`. -/
def matchLigand (line : List Char) : Option (List Char) :=
  matchNamePat "Ligand:".toList line

/-- Numeric value of a non-empty digit string. -/
def natVal (ds : List Char) : ℕ :=
  ds.foldl (fun a c => 10 * a + (c.toNat - '0'.toNat)) 0

/-- A decimal literal as matched by `[-+]?\d*\.?\d+` and converted by
Python's `float`: sign, integer part, fractional digits and their count.
Kept in this exact (executable, decidably comparable) form; its numeric
value is `DecNum.toReal`. -/
structure DecNum where
  neg : Bool
  intPart : ℕ
  fracPart : ℕ
  fracLen : ℕ
deriving DecidableEq

/-- The real value of a parsed decimal literal. -/
noncomputable def DecNum.toReal (d : DecNum) : ℝ :=
  (if d.neg then (-1 : ℝ) else 1) * ((d.intPart : ℝ) + (d.fracPart : ℝ) / 10 ^ d.fracLen)

/-- The number matched (and converted by `float`) by `[-+]?\d*\.?\d+` placed
at the start of `s`, with the backtracking semantics of the Python regex:
an integer part alone, a fraction alone after `'.'`, or both. -/
def parseNum (s : List Char) : Option DecNum :=
  let sgnRest : Bool × List Char :=
    match s with
    | '-' :: t => (true, t)
    | '+' :: t => (false, t)
    | _ => (false, s)
  let neg := sgnRest.1
  let s1 := sgnRest.2
  let d1 := s1.takeWhile isDigitCh
  let s2 := s1.drop d1.length
  match s2 with
  | '.' :: t =>
    let d2 := t.takeWhile isDigitCh
    if d2.isEmpty then
      if d1.isEmpty then none else some ⟨neg, natVal d1, 0, 0⟩
    else some ⟨neg, natVal d1, natVal d2, d2.length⟩
  | _ => if d1.isEmpty then none else some ⟨neg, natVal d1, 0, 0⟩

/-- Model of `re.compile` of the mode-1 pattern, `.match(line)`, followed by
`float(group(1))`: the mode-1 affinity of a Vina result line. -/
def matchAffinity (line : List Char) : Option DecNum :=
  match line with
  | [] => none
  | c :: _ =>
    if isSpaceCh c then
      match line.dropWhile isSpaceCh with
      | '1' :: rest =>
        match rest with
        | r :: _ => if isSpaceCh r then parseNum (rest.dropWhile isSpaceCh) else none
        | [] => none
      | _ => none
    else none

/-- Value `x` if already set, otherwise `y`: the shape of the code's
"only parse once" guards (`if not receptor_parsed_from_log: ...`). -/
def oget (x y : Option α) : Option α :=
  if x.isSome then x else y

/-- The line loop of `parse_vina_log`: each of receptor, ligand and affinity
is only parsed while still unset, and the loop breaks early when the affinity
is found with both names already parsed from the log. -/
def scanLines : List (List Char) → Option (List Char) → Option (List Char) →
    Option DecNum → Option (List Char) × Option (List Char) × Option DecNum
  | [], r, l, a => (r, l, a)
  | line :: rest, r, l, a =>
    let r' := oget r (matchReceptor line)
    let l' := oget l (matchLigand line)
    match a with
    | some v => scanLines rest r' l' (some v)
    | none =>
      match matchAffinity line with
      | none => scanLines rest r' l' none
      | some v =>
        if r'.isSome && l'.isSome then (r', l', some v)
        else scanLines rest r' l' (some v)

/-- Model of `dir_basename.split('_')` for the fallback, from the log file's path:
`os.path.basename(os.path.dirname(log_file)).split('_')`. -/
def dirParts (logPath : List Char) : List (List Char) :=
  splitOnUnderscore (basenameCh (dirnameCh logPath))

/-- Model of `parse_vina_log`: returns `(receptor, ligand, affinity)`.  A missing file
(`content = none`, the `FileNotFoundError` branch) returns three `None`s
without attempting the directory fallback.  Otherwise the log lines are
scanned, and a name not found in the log is taken from the directory basename
split on `'_'` when that split has at least two parts. -/
def parse_vina_log (logPath : List Char) (content : Option (List (List Char))) :
    Option (List Char) × Option (List Char) × Option DecNum :=
  match content with
  | none => (none, none, none)
  | some lines =>
    let s := scanLines lines none none none
    let r := s.1
    let l := s.2.1
    let a := s.2.2
    if r.isSome && l.isSome then (r, l, a)
    else
      match dirParts logPath with
      | p0 :: p1 :: ps =>
        (oget r (some p0), oget l (some (List.intercalate ['_'] (p1 :: ps))), a)
      | _ => (r, l, a)

example : matchReceptor "Rigid receptor: /a/b/rec.pdbqt".toList = some "rec".toList := by decide
example : matchLigand "Ligand: lig_3.pdbqt".toList = some "lig_3".toList := by decide
example : matchReceptor "Ligand: lig.pdbqt".toList = none := by decide
example : matchAffinity "   1       -7.5      0.000      0.000".toList = some ⟨true, 7, 5, 1⟩ := by decide
example : matchAffinity "\t1\t-12      0.000".toList = some ⟨true, 12, 0, 0⟩ := by decide
example : matchAffinity "   1   .25".toList = some ⟨false, 0, 25, 2⟩ := by decide
example : matchAffinity "   2       -8.5      0.000      0.000".toList = none := by decide
example : matchAffinity "   10      -8.5     0.0".toList = none := by decide
example : matchAffinity "mode 1 x".toList = none := by decide
example : parse_vina_log "recA_ligB/vina.log".toList (some []) = (some "recA".toList, some "ligB".toList, none) := by decide
example : parse_vina_log "recA_lig_B2/vina.log".toList (some []) = (some "recA".toList, some "lig_B2".toList, none) := by decide
example : parse_vina_log "plain/vina.log".toList (some ["Rigid receptor: r.pdbqt".toList]) = (some "r".toList, none, none) := by decide
example : parse_vina_log "x.log".toList none = (none, none, none) := by decide

/-! ### pKi conversion (`calculate_pKi`) -/

/-- Ideal gas constant in kcal/(mol·K), as in the source. -/
noncomputable def R : ℝ := 1.987204259e-3

/-- Standard temperature in Kelvin, as in the source. -/
noncomputable def T : ℝ := 298.15

/-- `RT = R * T`. -/
noncomputable def RT : ℝ := R * T

/-- Model of `calculate_pKi`: `None` passes through; otherwise
`ki = exp(ΔG / RT)` and the result is `-log10(ki)`, guarded by the
(dead, over exact reals) `ki <= 0` check of the source. -/
noncomputable def calculate_pKi : Option ℝ → Option ℝ
  | none => none
  | some d =>
    let ki := Real.exp (d / RT)
    if ki ≤ 0 then none else some (-(Real.logb 10 ki))

/-! ### Ligand descriptors and efficiency ratios -/

/-- The record produced by `calculate_ligand_metrics`: each descriptor may be
missing.  `MolWt`, `MolLogP`, `TPSA`, `CalcLabuteASA` and `qed` return
floats; `GetNumHeavyAtoms`, `NumRotatableBonds`, `NumHDonors` and
`NumHAcceptors` return integers. -/
structure LigandDesc where
  MW : Option ℝ
  LogP : Option ℝ
  TPSA : Option ℝ
  NHA : Option ℤ
  NRB : Option ℤ
  HBD : Option ℤ
  HBA : Option ℤ
  SASA : Option ℝ
  QED : Option ℝ

/-- The all-`none` descriptor record: what `calculate_ligand_metrics` returns
for a `None` molecule or on an RDKit error. -/
def noDesc : LigandDesc :=
  ⟨none, none, none, none, none, none, none, none, none⟩

/-- The four efficiency ratios returned by `calculate_efficiency_metrics`. -/
structure EffMetrics where
  LE : Option ℝ
  LLE : Option ℝ
  SILE_N : Option ℝ
  SILE_SASA : Option ℝ

/-- The all-`none` initialisation of the efficiency metrics dictionary. -/
def noEff : EffMetrics := ⟨none, none, none, none⟩

/-- Model of `calculate_efficiency_metrics(affinity, pki, ligand_metrics)`:
`LE = -affinity/NHA` (needs affinity, `NHA`, `NHA > 0`);
`LLE = pKi - LogP` (needs both); `SILE_N = -affinity/NHA^0.3` (same guard as
`LE`; the `ZeroDivisionError`/`ValueError` handlers are dead for `NHA > 0`);
`SILE_SASA = pKi/SASA` (needs `pKi`, `SASA` and `SASA > 1e-6`). -/
noncomputable def calculate_efficiency_metrics (affinity pki : Option ℝ)
    (lm : LigandDesc) : EffMetrics :=
  let negAff := affinity.map (fun a => -a)
  { LE :=
      match negAff, lm.NHA with
      | some na, some n => if 0 < n then some (na / (n : ℝ)) else none
      | _, _ => none
    LLE :=
      match pki, lm.LogP with
      | some p, some lp => some (p - lp)
      | _, _ => none
    SILE_N :=
      match negAff, lm.NHA with
      | some na, some n => if 0 < n then some (na / (n : ℝ) ^ (0.3 : ℝ)) else none
      | _, _ => none
    SILE_SASA :=
      match pki, lm.SASA with
      | some p, some s => if (1e-6 : ℝ) < s then some (p / s) else none
      | _, _ => none }

/-! ### The main flow of the metrics extractor -/

/-- Python truthiness of an optional string: `None` and `""` are falsy;
this is the `if receptor_name and ligand_name:` test. -/
def truthy : Option (List Char) → Bool
  | none => false
  | some s => !s.isEmpty

/-- The `results` dictionary of the extractor's main block. -/
structure Results where
  Receptor : Option (List Char)
  Ligand : Option (List Char)
  Affinity : Option DecNum
  pKi : Option ℝ
  MW : Option ℝ
  LogP : Option ℝ
  TPSA : Option ℝ
  NHA : Option ℤ
  NRB : Option ℤ
  HBD : Option ℤ
  HBA : Option ℤ
  SASA : Option ℝ
  QED : Option ℝ
  LE : Option ℝ
  LLE : Option ℝ
  SILE_N : Option ℝ
  SILE_SASA : Option ℝ

/-- Main block after `parse_vina_log`: results start all-`None` except the
three parsed fields; only when receptor and ligand names are truthy are the
pKi, ligand descriptors and (only when affinity was parsed) efficiency
metrics filled in.  `env` is the ligand-file lookup oracle (see module
docstring). -/
noncomputable def buildResults (r l : Option (List Char)) (a : Option DecNum)
    (env : List Char → LigandDesc) : Results :=
  if truthy r && truthy l then
    let aR := a.map DecNum.toReal
    let pki := calculate_pKi aR
    let lm := match l with
      | some name => env name
      | none => noDesc
    let eff := if a.isSome then calculate_efficiency_metrics aR pki lm else noEff
    { Receptor := r, Ligand := l, Affinity := a, pKi := pki,
      MW := lm.MW, LogP := lm.LogP, TPSA := lm.TPSA, NHA := lm.NHA,
      NRB := lm.NRB, HBD := lm.HBD, HBA := lm.HBA, SASA := lm.SASA,
      QED := lm.QED, LE := eff.LE, LLE := eff.LLE, SILE_N := eff.SILE_N,
      SILE_SASA := eff.SILE_SASA }
  else
    { Receptor := r, Ligand := l, Affinity := a, pKi := none,
      MW := none, LogP := none, TPSA := none, NHA := none,
      NRB := none, HBD := none, HBA := none, SASA := none,
      QED := none, LE := none, LLE := none, SILE_N := none,
      SILE_SASA := none }

/-- One run of the metrics extractor on a log path, the (possibly missing)
log content, and the ligand-file oracle. -/
noncomputable def runExtractor (logPath : List Char)
    (content : Option (List (List Char))) (env : List Char → LigandDesc) :
    Results :=
  let s := parse_vina_log logPath content
  buildResults s.1 s.2.1 s.2.2 env

/-! ### CSV formatting of the output row -/

/-- The fractional digits, zero-padded on the left to width `d`. -/
def padFracStr (d : ℕ) (m : ℕ) : String :=
  let s := Nat.repr m
  String.mk (List.replicate (d - s.length) '0') ++ s

/-- Fixed-point rendering of the integer `n` interpreted as `n / 10^d`:
the digit string Python produces once the value has been rounded to `d`
fractional digits. -/
def fmtScaled (d : ℕ) (n : ℤ) : String :=
  (if n < 0 then "-" else "") ++ Nat.repr (n.natAbs / 10 ^ d) ++ "." ++
    padFracStr d (n.natAbs % 10 ^ d)

/-- Python fixed-point formatting (format specs `.3f` and `.2f`) of a parsed
decimal literal, computably: the value
`±(intPart + fracPart/10^fracLen)` rounded half-up to `d` fractional digits.
(The binary-float representation and its round-half-even ties are not
modelled; no claim depends on tie digits.) -/
def fmtDecNum (d : ℕ) (x : DecNum) : String :=
  let M : ℤ := (x.intPart * 10 ^ x.fracLen + x.fracPart : ℕ)
  let sM : ℤ := if x.neg then -M else M
  fmtScaled d (Int.fdiv (2 * sM * 10 ^ d + 10 ^ x.fracLen) (2 * 10 ^ x.fracLen))

/-- Python fixed-point formatting of a real-valued column (same rounding
model as `fmtDecNum`). -/
noncomputable def fmtReal (d : ℕ) (x : ℝ) : String :=
  fmtScaled d (round (x * 10 ^ d))

/-- A missing string column prints `"NA"`, a present one prints itself. -/
def fmtOptStr : Option (List Char) → String
  | none => "NA"
  | some s => s.asString

/-- A missing integer column prints `"NA"`, a present one prints `str(n)`. -/
def fmtOptInt : Option ℤ → String
  | none => "NA"
  | some n => toString n

/-- A missing affinity prints `"NA"`, a present one its 3-decimal
fixed-point form. -/
def fmtOptAff : Option DecNum → String
  | none => "NA"
  | some x => fmtDecNum 3 x

/-- A missing real column prints `"NA"`, a present one its fixed-point
form with `d` decimals. -/
noncomputable def fmtOptReal (d : ℕ) : Option ℝ → String
  | none => "NA"
  | some x => fmtReal d x

/-- The 17 formatted cells, in the fixed header order
`Receptor, Ligand, Affinity_kcal_mol, pKi, MW, LogP, TPSA, NHA, NRB, HBD,
HBA, SASA_A2, QED, LE, LLE, SILE_N, SILE_SASA`, with the format widths of
the source (3 decimals for affinity, LE, SILE_N; 2 for the other floats;
`str` for names and integer counts; `"NA"` for `None`). -/
noncomputable def outputCells (res : Results) : List String :=
  [fmtOptStr res.Receptor, fmtOptStr res.Ligand, fmtOptAff res.Affinity,
   fmtOptReal 2 res.pKi, fmtOptReal 2 res.MW, fmtOptReal 2 res.LogP,
   fmtOptReal 2 res.TPSA, fmtOptInt res.NHA, fmtOptInt res.NRB,
   fmtOptInt res.HBD, fmtOptInt res.HBA, fmtOptReal 2 res.SASA,
   fmtOptReal 2 res.QED, fmtOptReal 3 res.LE, fmtOptReal 2 res.LLE,
   fmtOptReal 3 res.SILE_N, fmtOptReal 2 res.SILE_SASA]

/-- Model of the final print: the single comma-joined line written to
standard output. -/
noncomputable def printedLine (res : Results) : String :=
  String.intercalate "," (outputCells res)

/-- A whole extractor run: the printed cells and the process exit status.
Every exception raised inside the modelled code is caught and turned into a
warning (`parse_vina_log` catches `FileNotFoundError` and any read error,
the RDKit helpers catch their exceptions), and the script ends with a plain
`print`, so the exit status of a completed run is 0. -/
noncomputable def extractorMain (logPath : List Char)
    (content : Option (List (List Char))) (env : List Char → LigandDesc) :
    List String × ℕ :=
  (outputCells (runExtractor logPath content env), 0)

/-- Comma-separated field count of a printed line. -/
def countFields (line : String) : ℕ :=
  line.toList.count ',' + 1

/-! ### The plot generator's data-cleaning stage (`6_plot_results.py`) -/

/-- One row of the aggregated CSV after `pd.read_csv` plus
`pd.to_numeric(..., errors='coerce')`: names are optional strings, the 15
numeric columns are optional reals (`NaN` is `none`). -/
structure PlotRow where
  Receptor : Option String
  Ligand : Option String
  Affinity_kcal_mol : Option ℝ
  pKi : Option ℝ
  MW : Option ℝ
  LogP : Option ℝ
  TPSA : Option ℝ
  NHA : Option ℝ
  NRB : Option ℝ
  HBD : Option ℝ
  HBA : Option ℝ
  SASA_A2 : Option ℝ
  QED : Option ℝ
  LE : Option ℝ
  LLE : Option ℝ
  SILE_N : Option ℝ
  SILE_SASA : Option ℝ

/-- Model of `df.dropna(subset=['Affinity_kcal_mol', 'Receptor', 'Ligand'])`:
the rows kept for all plotting. -/
def cleanRows (rows : List PlotRow) : List PlotRow :=
  rows.filter (fun r =>
    r.Affinity_kcal_mol.isSome && r.Receptor.isSome && r.Ligand.isSome)

/-- Plot 5 data: `df.dropna(subset=['pKi', 'LogP'])`. -/
def pkiLogpRows (rows : List PlotRow) : List PlotRow :=
  (cleanRows rows).filter (fun r => r.pKi.isSome && r.LogP.isSome)

/-- Plot 6 data: `df.dropna(subset=['Affinity_kcal_mol', 'LE'])`. -/
def leAffinityRows (rows : List PlotRow) : List PlotRow :=
  (cleanRows rows).filter (fun r => r.Affinity_kcal_mol.isSome && r.LE.isSome)

/-- Plot 7 data: `df.dropna(subset=['pKi', 'SILE_SASA'])`. -/
def sileSasaRows (rows : List PlotRow) : List PlotRow :=
  (cleanRows rows).filter (fun r => r.pKi.isSome && r.SILE_SASA.isSome)

/-- The plot generator's load stage: a missing CSV (`FileNotFoundError`)
exits the process with status 1 (`exit(1)`); otherwise the cleaned rows are
handed to the plotting code. -/
def plotLoad : Option (List PlotRow) → Except ℕ (List PlotRow)
  | none => Except.error 1
  | some rows => Except.ok (cleanRows rows)

/-! ### Helper lemmas about the scan loop -/

lemma oget_some (v : α) (y : Option α) : oget (some v) y = some v := rfl

lemma oget_none (y : Option α) : oget none y = y := rfl

lemma oget_none_right (x : Option α) : oget x none = x := by
  cases x <;> rfl

lemma oget_assoc (x y z : Option α) :
    oget (oget x y) z = oget x (oget y z) := by
  cases x <;> cases y <;> rfl

lemma oget_of_isSome {x : Option α} (y : Option α) (h : x.isSome = true) :
    oget x y = x := by
  cases x
  · simp at h
  · rfl

lemma findSome?_cons_oget (f : α → Option β) (x : α) (l : List α) :
    (x :: l).findSome? f = oget (f x) (l.findSome? f) := by
  cases h : f x <;> simp [List.findSome?_cons, h, oget]

/-- The scan loop with arbitrary initial state: each component is its initial
value if already set, otherwise the result of the first matching line.  The
early `break` (taken when the affinity is found with both names already
parsed from the log) does not change the outcome. -/
lemma scanLines_eq (lines : List (List Char)) :
    ∀ (r l : Option (List Char)) (a : Option DecNum),
      scanLines lines r l a =
        (oget r (lines.findSome? matchReceptor),
         oget l (lines.findSome? matchLigand),
         oget a (lines.findSome? matchAffinity)) := by
  induction lines with
  | nil =>
    intro r l a
    simp [scanLines, List.findSome?_nil, oget_none_right]
  | cons line rest ih =>
    intro r l a
    rw [findSome?_cons_oget, findSome?_cons_oget, findSome?_cons_oget,
      ← oget_assoc, ← oget_assoc, ← oget_assoc]
    cases a with
    | some v =>
      show scanLines rest (oget r (matchReceptor line))
        (oget l (matchLigand line)) (some v) = _
      rw [ih]
      rfl
    | none =>
      show (match matchAffinity line with
        | none => scanLines rest (oget r (matchReceptor line))
            (oget l (matchLigand line)) none
        | some v =>
          if (oget r (matchReceptor line)).isSome &&
              (oget l (matchLigand line)).isSome then
            (oget r (matchReceptor line), oget l (matchLigand line), some v)
          else scanLines rest (oget r (matchReceptor line))
            (oget l (matchLigand line)) (some v)) = _
      cases hm : matchAffinity line with
      | none =>
        rw [ih]
        rfl
      | some v =>
        rw [oget_none, oget_some]
        dsimp only
        by_cases hb : ((oget r (matchReceptor line)).isSome &&
            (oget l (matchLigand line)).isSome) = true
        · rw [if_pos hb]
          obtain ⟨hr, hl⟩ := Bool.and_eq_true_iff.mp hb
          rw [oget_of_isSome _ hr, oget_of_isSome _ hl]
        · rw [if_neg hb, ih]
          rfl

lemma findSome?_append_oget (f : α → Option β) (l₁ l₂ : List α) :
    (l₁ ++ l₂).findSome? f = oget (l₁.findSome? f) (l₂.findSome? f) := by
  induction l₁ with
  | nil => simp [List.findSome?_nil, oget_none]
  | cons x t ih =>
    rw [List.cons_append, findSome?_cons_oget, findSome?_cons_oget, ih,
      oget_assoc]

/-- Unfolding of `parse_vina_log` on an existing file, directly in terms of the
first matching line of each pattern and the directory fallback. -/
lemma parse_vina_log_some (path : List Char) (lines : List (List Char)) :
    parse_vina_log path (some lines) =
      (let r := lines.findSome? matchReceptor
       let l := lines.findSome? matchLigand
       let a := lines.findSome? matchAffinity
       if r.isSome && l.isSome then (r, l, a)
       else
         match dirParts path with
         | p0 :: p1 :: ps =>
           (oget r (some p0),
            oget l (some (List.intercalate ['_'] (p1 :: ps))), a)
         | _ => (r, l, a)) := by
  simp only [parse_vina_log]
  rw [scanLines_eq, oget_none, oget_none, oget_none]

/-- C8: the scan loop of `parse_vina_log` uses only the first line matching
each of the receptor, ligand and mode-1 affinity patterns (the early `break`
included), so matching lines after the first ones — in particular everything
after all three have been found — are ignored. -/
theorem C8_first_occurrence (lines : List (List Char)) :
    scanLines lines none none none =
      (lines.findSome? matchReceptor, lines.findSome? matchLigand,
       lines.findSome? matchAffinity) ∧
    ∀ pre post : List (List Char),
      scanLines (pre ++ post) none none none =
        (oget (pre.findSome? matchReceptor) (post.findSome? matchReceptor),
         oget (pre.findSome? matchLigand) (post.findSome? matchLigand),
         oget (pre.findSome? matchAffinity) (post.findSome? matchAffinity)) := by
  constructor
  · rw [scanLines_eq, oget_none, oget_none, oget_none]
  · intro pre post
    rw [scanLines_eq, oget_none, oget_none, oget_none,
      findSome?_append_oget, findSome?_append_oget, findSome?_append_oget]

/-- The spec's description of the name taken from a log line: the basename of
the captured `.pdbqt` path "without extension", i.e. with one trailing
`".pdbqt"` stripped.  Stated from the claim's words, for comparison with the
code's `replace(".pdbqt", "")`. -/
def specBasenameWithoutExt (s : List Char) : List Char :=
  if pdbqtPat.isSuffixOf s then s.take (s.length - 6) else s

/-- C5 (corrected): the code removes every `".pdbqt"` occurrence from the
basename, which differs from "basename without extension" when `".pdbqt"`
occurs in the interior of the file name: for the log line
`"Rigid receptor: b.pdbqtc.pdbqt"` the code yields `"bc"`, not the
extension-stripped basename `"b.pdbqtc"`. -/
theorem C5_counterexample :
    (parse_vina_log "d/v.log".toList
        (some ["Rigid receptor: b.pdbqtc.pdbqt".toList])).1 = some "bc".toList ∧
    specBasenameWithoutExt (basenameCh "b.pdbqtc.pdbqt".toList) =
      "b.pdbqtc".toList ∧
    some "bc".toList ≠ some "b.pdbqtc".toList := by
  decide

/-- C5 (amended): names come from the log content first — a name whose
pattern matches some line is the extraction from the first such line, and is
never overwritten by the directory fallback — and only a name not found in
the log falls back to the log directory's basename split on `'_'` (receptor
the first part, ligand the underscore-join of the rest, provided there are at
least two parts; otherwise the name stays `None`). -/
theorem C5_log_first_dir_fallback (path : List Char) (lines : List (List Char)) :
    (∀ n, lines.findSome? matchReceptor = some n →
      (parse_vina_log path (some lines)).1 = some n) ∧
    (∀ n, lines.findSome? matchLigand = some n →
      (parse_vina_log path (some lines)).2.1 = some n) ∧
    (lines.findSome? matchReceptor = none →
      (parse_vina_log path (some lines)).1 =
        (match dirParts path with
          | p0 :: _ :: _ => some p0
          | _ => none)) ∧
    (lines.findSome? matchLigand = none →
      (parse_vina_log path (some lines)).2.1 =
        (match dirParts path with
          | _ :: p1 :: ps => some (List.intercalate ['_'] (p1 :: ps))
          | _ => none)) := by
  rw [parse_vina_log_some]
  dsimp only
  refine ⟨?_, ?_, ?_, ?_⟩
  · intro n hn
    simp only [hn]
    cases hl : lines.findSome? matchLigand with
    | some m => simp
    | none =>
      simp only [Option.isSome_some, Option.isSome_none, Bool.and_false,
        Bool.false_eq_true, if_false]
      cases hdp : dirParts path with
      | nil => simp
      | cons p0 rest =>
        cases rest with
        | nil => simp
        | cons p1 ps => simp [oget]
  · intro n hn
    simp only [hn]
    cases hr : lines.findSome? matchReceptor with
    | some m => simp
    | none =>
      simp only [Option.isSome_some, Option.isSome_none, Bool.false_and,
        Bool.false_eq_true, if_false]
      cases hdp : dirParts path with
      | nil => simp
      | cons p0 rest =>
        cases rest with
        | nil => simp
        | cons p1 ps => simp [oget]
  · intro hn
    simp only [hn, Option.isSome_none, Bool.false_and, Bool.false_eq_true,
      if_false]
    cases hdp : dirParts path with
    | nil => simp
    | cons p0 rest =>
      cases rest with
      | nil => simp
      | cons p1 ps => simp [oget]
  · intro hn
    simp only [hn, Option.isSome_none, Bool.and_false, Bool.false_eq_true,
      if_false]
    cases hdp : dirParts path with
    | nil => simp
    | cons p0 rest =>
      cases rest with
      | nil => simp
      | cons p1 ps => simp [oget]

/-- A log whose content names the receptor but not the ligand. -/
def wLines : List (List Char) := ["Rigid receptor: /x/rec.pdbqt".toList]

/-- Witness for C5's theorem at a concrete input: the receptor comes from the
log (and the directory fallback does not overwrite it), the ligand from the
directory `R_big_lig`. -/
theorem C5_witness :
    wLines.findSome? matchReceptor = some "rec".toList ∧
    wLines.findSome? matchLigand = none ∧
    (parse_vina_log "R_big_lig/v.log".toList (some wLines)).1 =
      some "rec".toList ∧
    (parse_vina_log "R_big_lig/v.log".toList (some wLines)).2.1 =
      some "big_lig".toList := by
  have h := C5_log_first_dir_fallback "R_big_lig/v.log".toList wLines
  refine ⟨by decide, by decide, h.1 _ (by decide), ?_⟩
  rw [h.2.2.2 (by decide)]
  decide

/-- C1: for every (finite, here: real) affinity value,
`calculate_pKi` returns `-log10(exp(ΔG / RT))` — equivalently
`-ΔG / (RT·ln 10)` — with `R = 1.987204259e-3`, `T = 298.15`; `None` maps to
`None`.  (The `ki <= 0` guard is dead: `exp` is positive over the reals.) -/
theorem C1_pKi_formula (g : ℝ) :
    calculate_pKi (some g) = some (-(Real.logb 10 (Real.exp (g / RT)))) ∧
    calculate_pKi (some g) = some (-(g / (RT * Real.log 10))) ∧
    calculate_pKi none = none ∧
    R = 1.987204259e-3 ∧ T = 298.15 ∧ RT = R * T := by
  have hpos : ¬ Real.exp (g / RT) ≤ 0 := not_le.mpr (Real.exp_pos (g / RT))
  refine ⟨?_, ?_, rfl, rfl, rfl, rfl⟩
  · show (if Real.exp (g / RT) ≤ 0 then none
      else some (-(Real.logb 10 (Real.exp (g / RT))))) = _
    rw [if_neg hpos]
  · show (if Real.exp (g / RT) ≤ 0 then none
      else some (-(Real.logb 10 (Real.exp (g / RT))))) = _
    rw [if_neg hpos]
    have hlog : Real.logb 10 (Real.exp (g / RT)) = g / RT / Real.log 10 := by
      simp only [Real.logb, Real.log_exp]
    rw [hlog, div_div]

/-- C6: the four efficiency ratios are exactly the stated algebraic
combinations under the stated presence conditions, and are `None` whenever
those prerequisites fail. -/
theorem C6_efficiency_ratios (a p : Option ℝ) (lm : LigandDesc) :
    (∀ av n, a = some av → lm.NHA = some n → 0 < n →
      (calculate_efficiency_metrics a p lm).LE = some (-av / (n : ℝ)) ∧
      (calculate_efficiency_metrics a p lm).SILE_N =
        some (-av / (n : ℝ) ^ (0.3 : ℝ))) ∧
    (∀ pv lv, p = some pv → lm.LogP = some lv →
      (calculate_efficiency_metrics a p lm).LLE = some (pv - lv)) ∧
    (∀ pv sv, p = some pv → lm.SASA = some sv → (1e-6 : ℝ) < sv →
      (calculate_efficiency_metrics a p lm).SILE_SASA = some (pv / sv)) ∧
    ((calculate_efficiency_metrics a p lm).LE.isSome = true →
      a.isSome = true ∧ ∃ n, lm.NHA = some n ∧ 0 < n) ∧
    ((calculate_efficiency_metrics a p lm).LLE.isSome = true →
      p.isSome = true ∧ lm.LogP.isSome = true) ∧
    ((calculate_efficiency_metrics a p lm).SILE_N.isSome = true →
      a.isSome = true ∧ ∃ n, lm.NHA = some n ∧ 0 < n) ∧
    ((calculate_efficiency_metrics a p lm).SILE_SASA.isSome = true →
      p.isSome = true ∧ ∃ sv, lm.SASA = some sv ∧ (1e-6 : ℝ) < sv) := by
  refine ⟨?_, ?_, ?_, ?_, ?_, ?_, ?_⟩
  · intro av n ha hn hpos
    subst ha
    simp [calculate_efficiency_metrics, hn, hpos]
  · intro pv lv hp hl
    subst hp
    simp [calculate_efficiency_metrics, hl]
  · intro pv sv hp hs hpos
    subst hp
    simp [calculate_efficiency_metrics, hs, hpos]
  · cases a with
    | none => simp [calculate_efficiency_metrics]
    | some av =>
      cases hn : lm.NHA with
      | none => simp [calculate_efficiency_metrics, hn]
      | some n =>
        by_cases hpos : 0 < n
        · intro _
          exact ⟨rfl, n, rfl, hpos⟩
        · simp [calculate_efficiency_metrics, hn, hpos]
  · cases p with
    | none => simp [calculate_efficiency_metrics]
    | some pv =>
      cases hl : lm.LogP with
      | none => simp [calculate_efficiency_metrics, hl]
      | some lv => intro _; exact ⟨rfl, rfl⟩
  · cases a with
    | none => simp [calculate_efficiency_metrics]
    | some av =>
      cases hn : lm.NHA with
      | none => simp [calculate_efficiency_metrics, hn]
      | some n =>
        by_cases hpos : 0 < n
        · intro _
          exact ⟨rfl, n, rfl, hpos⟩
        · simp [calculate_efficiency_metrics, hn, hpos]
  · cases p with
    | none => simp [calculate_efficiency_metrics]
    | some pv =>
      cases hs : lm.SASA with
      | none => simp [calculate_efficiency_metrics, hs]
      | some sv =>
        by_cases hpos : (1e-6 : ℝ) < sv
        · intro _
          exact ⟨rfl, sv, rfl, hpos⟩
        · simp [calculate_efficiency_metrics, hs, hpos]

/-- A ligand-descriptor record with the fields the C6 witness exercises. -/
noncomputable def wDesc : LigandDesc :=
  ⟨none, some 2, none, some 10, none, none, none, some 1, none⟩

/-- Witness for C6's theorem at a concrete input. -/
theorem C6_witness :
    (calculate_efficiency_metrics (some (-6)) (some 4) wDesc).LE =
      some (-(-6 : ℝ) / ((10 : ℤ) : ℝ)) ∧
    (calculate_efficiency_metrics (some (-6)) (some 4) wDesc).SILE_N =
      some (-(-6 : ℝ) / ((10 : ℤ) : ℝ) ^ (0.3 : ℝ)) ∧
    (calculate_efficiency_metrics (some (-6)) (some 4) wDesc).LLE =
      some ((4 : ℝ) - 2) ∧
    (calculate_efficiency_metrics (some (-6)) (some 4) wDesc).SILE_SASA =
      some ((4 : ℝ) / 1) := by
  obtain ⟨h1, h2, h3, _⟩ := C6_efficiency_ratios (some (-6)) (some 4) wDesc
  obtain ⟨hLE, hSN⟩ := h1 (-6) 10 rfl rfl (by decide)
  exact ⟨hLE, hSN, h2 4 2 rfl rfl, h3 4 1 rfl rfl (by norm_num)⟩

/-! ### Helper lemmas about the main flow -/

lemma buildResults_Affinity (r l : Option (List Char)) (a : Option DecNum)
    (e : List Char → LigandDesc) : (buildResults r l a e).Affinity = a := by
  unfold buildResults
  split <;> rfl

lemma buildResults_eff_none (r l : Option (List Char))
    (e : List Char → LigandDesc) :
    (buildResults r l none e).LE = none ∧
    (buildResults r l none e).LLE = none ∧
    (buildResults r l none e).SILE_N = none ∧
    (buildResults r l none e).SILE_SASA = none := by
  unfold buildResults
  split <;> exact ⟨rfl, rfl, rfl, rfl⟩

lemma buildResults_not_truthy (r l : Option (List Char)) (a : Option DecNum)
    (e : List Char → LigandDesc) (h : (truthy r && truthy l) = false) :
    buildResults r l a e =
      { Receptor := r, Ligand := l, Affinity := a, pKi := none,
        MW := none, LogP := none, TPSA := none, NHA := none,
        NRB := none, HBD := none, HBA := none, SASA := none,
        QED := none, LE := none, LLE := none, SILE_N := none,
        SILE_SASA := none } := by
  unfold buildResults
  rw [h]
  simp

/-! ### C2: shape of the printed row -/

/-- C2 (amended): every run prints exactly one row of 17 cells, joined by
commas, in the fixed header order built into `outputCells`.  (Without
escaping, a name containing a comma inflates the comma-separated field count
beyond 17 — see the counterexample.) -/
theorem C2_one_row_of_17_cells (p : List Char) (c : Option (List (List Char)))
    (e : List Char → LigandDesc) :
    (outputCells (runExtractor p c e)).length = 17 ∧
    printedLine (runExtractor p c e) =
      String.intercalate "," (outputCells (runExtractor p c e)) :=
  ⟨rfl, rfl⟩

/-- C2 (counterexample): a receptor name containing a comma (here taken from
the directory fallback of `r,x_lig/v.log`) makes the printed line split into
18 comma-separated fields, not 17, because values are joined unescaped. -/
theorem C2_counterexample :
    countFields (printedLine
      (runExtractor "r,x_lig/v.log".toList (some []) (fun _ => noDesc))) = 18 := by
  decide

/-! ### C3: `NA` cells and dropped plot rows -/

/-- C3: a `None` value prints as `"NA"` in its cell, and the plot generator
keeps exactly the rows whose `Affinity_kcal_mol`, `Receptor` and `Ligand` are
present (and, per plot, the plotted metrics). -/
theorem C3_na_and_dropna :
    (∀ res : Results,
      (res.Receptor = none → (outputCells res)[0]? = some "NA") ∧
      (res.Ligand = none → (outputCells res)[1]? = some "NA") ∧
      (res.Affinity = none → (outputCells res)[2]? = some "NA") ∧
      (res.pKi = none → (outputCells res)[3]? = some "NA") ∧
      (res.MW = none → (outputCells res)[4]? = some "NA") ∧
      (res.LogP = none → (outputCells res)[5]? = some "NA") ∧
      (res.TPSA = none → (outputCells res)[6]? = some "NA") ∧
      (res.NHA = none → (outputCells res)[7]? = some "NA") ∧
      (res.NRB = none → (outputCells res)[8]? = some "NA") ∧
      (res.HBD = none → (outputCells res)[9]? = some "NA") ∧
      (res.HBA = none → (outputCells res)[10]? = some "NA") ∧
      (res.SASA = none → (outputCells res)[11]? = some "NA") ∧
      (res.QED = none → (outputCells res)[12]? = some "NA") ∧
      (res.LE = none → (outputCells res)[13]? = some "NA") ∧
      (res.LLE = none → (outputCells res)[14]? = some "NA") ∧
      (res.SILE_N = none → (outputCells res)[15]? = some "NA") ∧
      (res.SILE_SASA = none → (outputCells res)[16]? = some "NA")) ∧
    (∀ (rows : List PlotRow) (r : PlotRow),
      (r ∈ cleanRows rows ↔ r ∈ rows ∧
        (r.Affinity_kcal_mol.isSome && r.Receptor.isSome &&
          r.Ligand.isSome) = true) ∧
      (r ∈ pkiLogpRows rows ↔ r ∈ cleanRows rows ∧
        (r.pKi.isSome && r.LogP.isSome) = true) ∧
      (r ∈ leAffinityRows rows ↔ r ∈ cleanRows rows ∧
        (r.Affinity_kcal_mol.isSome && r.LE.isSome) = true) ∧
      (r ∈ sileSasaRows rows ↔ r ∈ cleanRows rows ∧
        (r.pKi.isSome && r.SILE_SASA.isSome) = true)) := by
  constructor
  · intro res
    exact ⟨fun h => by simp [outputCells, h, fmtOptStr],
      fun h => by simp [outputCells, h, fmtOptStr],
      fun h => by simp [outputCells, h, fmtOptAff],
      fun h => by simp [outputCells, h, fmtOptReal],
      fun h => by simp [outputCells, h, fmtOptReal],
      fun h => by simp [outputCells, h, fmtOptReal],
      fun h => by simp [outputCells, h, fmtOptReal],
      fun h => by simp [outputCells, h, fmtOptInt],
      fun h => by simp [outputCells, h, fmtOptInt],
      fun h => by simp [outputCells, h, fmtOptInt],
      fun h => by simp [outputCells, h, fmtOptInt],
      fun h => by simp [outputCells, h, fmtOptReal],
      fun h => by simp [outputCells, h, fmtOptReal],
      fun h => by simp [outputCells, h, fmtOptReal],
      fun h => by simp [outputCells, h, fmtOptReal],
      fun h => by simp [outputCells, h, fmtOptReal],
      fun h => by simp [outputCells, h, fmtOptReal]⟩
  · intro rows r
    refine ⟨?_, ?_, ?_, ?_⟩ <;>
      · simp [cleanRows, pkiLogpRows, leAffinityRows, sileSasaRows,
          List.mem_filter]
        try tauto

/-- The all-`None` results record (what a run with nothing parsed holds). -/
def resNone : Results :=
  ⟨none, none, none, none, none, none, none, none, none, none, none, none,
   none, none, none, none, none⟩

/-- A CSV row with names and affinity present, everything else missing. -/
noncomputable def row0 : PlotRow :=
  ⟨some "r", some "l", some 1, none, none, none, none, none, none, none,
   none, none, none, none, none, none, none⟩

/-- Witness for C3's theorem at concrete inputs. -/
theorem C3_witness :
    (outputCells resNone)[3]? = some "NA" ∧
    (row0 ∈ cleanRows [row0] ↔ row0 ∈ [row0] ∧
      (row0.Affinity_kcal_mol.isSome && row0.Receptor.isSome &&
        row0.Ligand.isSome) = true) :=
  ⟨(C3_na_and_dropna.1 resNone).2.2.2.1 rfl, (C3_na_and_dropna.2 [row0] row0).1⟩

/-! ### C4: warnings, aborts and exit statuses -/

/-- C4 (amended): neither script aborts on a warning; the plot generator
exits with status 1 when its CSV is missing, but the metrics extractor
catches a missing log file (`FileNotFoundError` → warning, names and affinity
`None`, no directory fallback) and still prints a full all-`NA` row, ending
with exit status 0. -/
theorem C4_missing_input_behaviour :
    (∀ (p : List Char) (e : List Char → LigandDesc),
      extractorMain p none e = (List.replicate 17 "NA", 0)) ∧
    plotLoad none = Except.error 1 ∧
    (∀ rows : List PlotRow, plotLoad (some rows) = Except.ok (cleanRows rows)) :=
  ⟨fun _ _ => rfl, rfl, fun _ => rfl⟩

/-- C4 (counterexample): the metrics extractor's exit status on a missing
log file is 0, not the non-zero status the claim asserts — the
`FileNotFoundError` is caught at `parse_vina_log` and the run completes. -/
theorem C4_counterexample :
    (extractorMain "missing.log".toList none (fun _ => noDesc)).2 = 0 := rfl

/-! ### C7: determinism and the receptor/ligand key -/

/-- Log contents differing only in the mode-1 affinity value. -/
def cLinesA : List (List Char) :=
  ["Rigid receptor: r.pdbqt".toList, "Ligand: l.pdbqt".toList,
   "   1   -7.5".toList]

/-- Same names as `cLinesA`, different affinity. -/
def cLinesB : List (List Char) :=
  ["Rigid receptor: r.pdbqt".toList, "Ligand: l.pdbqt".toList,
   "   1   -8.5".toList]

/-- C7 (counterexample): two runs with the same receptor/ligand key but
different log contents produce different records, so the key alone does not
determine the record. -/
theorem C7_counterexample :
    (runExtractor "out/v.log".toList (some cLinesA) (fun _ => noDesc)).Receptor =
      (runExtractor "out/v.log".toList (some cLinesB) (fun _ => noDesc)).Receptor ∧
    (runExtractor "out/v.log".toList (some cLinesA) (fun _ => noDesc)).Ligand =
      (runExtractor "out/v.log".toList (some cLinesB) (fun _ => noDesc)).Ligand ∧
    runExtractor "out/v.log".toList (some cLinesA) (fun _ => noDesc) ≠
      runExtractor "out/v.log".toList (some cLinesB) (fun _ => noDesc) :=
  ⟨by decide, by decide,
   fun h => absurd (congrArg Results.Affinity h) (by decide)⟩

/-- C7 (amended): the extractor is a deterministic function of the log
contents, the log path and the ligand-file oracle: runs on extensionally
equal inputs produce identical records. -/
theorem C7_deterministic (p : List Char) (c : Option (List (List Char)))
    (e₁ e₂ : List Char → LigandDesc) (h : ∀ n, e₁ n = e₂ n) :
    runExtractor p c e₁ = runExtractor p c e₂ := by
  rw [funext h]

/-- Witness for C7's theorem at a concrete input. -/
theorem C7_witness :
    runExtractor "a_b/v.log".toList (some []) (fun _ => noDesc) =
      runExtractor "a_b/v.log".toList (some []) (fun _ => noDesc) :=
  C7_deterministic "a_b/v.log".toList (some []) _ _ (fun _ => rfl)

/-! ### C9: no affinity, no efficiency columns -/

/-- C9: when no affinity was parsed, every one of the four efficiency cells
(LE, LLE, SILE_N, SILE_SASA — output positions 13..16) prints `"NA"`,
whatever the ligand descriptors are. -/
theorem C9_no_affinity_no_efficiency (p : List Char)
    (c : Option (List (List Char))) (e : List Char → LigandDesc)
    (h : (runExtractor p c e).Affinity = none) :
    (outputCells (runExtractor p c e))[13]? = some "NA" ∧
    (outputCells (runExtractor p c e))[14]? = some "NA" ∧
    (outputCells (runExtractor p c e))[15]? = some "NA" ∧
    (outputCells (runExtractor p c e))[16]? = some "NA" := by
  simp only [runExtractor] at h ⊢
  rw [buildResults_Affinity] at h
  rw [h]
  obtain ⟨h1, h2, h3, h4⟩ :=
    buildResults_eff_none (parse_vina_log p c).1 (parse_vina_log p c).2.1 e
  exact ⟨by simp [outputCells, h1, fmtOptReal],
    by simp [outputCells, h2, fmtOptReal],
    by simp [outputCells, h3, fmtOptReal],
    by simp [outputCells, h4, fmtOptReal]⟩

/-- A log with both names but no affinity table. -/
def w9Lines : List (List Char) :=
  ["Rigid receptor: /p/r.pdbqt".toList, "Ligand: l.pdbqt".toList]

/-- A ligand-file oracle that computes every descriptor, to exhibit C9 even
when `NHA`, `LogP` and `SASA` are present. -/
noncomputable def wEnv : List Char → LigandDesc :=
  fun _ => ⟨some 300, some 2, some 50, some 10, some 3, some 1, some 2,
    some 100, some 1⟩

/-- Witness for C9's theorem at a concrete input. -/
theorem C9_witness :
    (runExtractor "x/v.log".toList (some w9Lines) wEnv).Affinity = none ∧
    ((outputCells (runExtractor "x/v.log".toList (some w9Lines) wEnv))[13]? =
        some "NA" ∧
      (outputCells (runExtractor "x/v.log".toList (some w9Lines) wEnv))[14]? =
        some "NA" ∧
      (outputCells (runExtractor "x/v.log".toList (some w9Lines) wEnv))[15]? =
        some "NA" ∧
      (outputCells (runExtractor "x/v.log".toList (some w9Lines) wEnv))[16]? =
        some "NA") := by
  have h : (runExtractor "x/v.log".toList (some w9Lines) wEnv).Affinity = none := by
    decide
  exact ⟨h, C9_no_affinity_no_efficiency _ _ _ h⟩

/-! ### C10: missing or empty names skip all derived columns -/

/-- C10: when the receptor or ligand name is `None` or empty after parsing,
all 14 derived cells print `"NA"` while the first three cells still show the
parsed receptor, ligand and affinity (the affinity formatted normally when
one was found). -/
theorem C10_skip_derived (p : List Char) (c : Option (List (List Char)))
    (e : List Char → LigandDesc)
    (h : (truthy (parse_vina_log p c).1 &&
      truthy (parse_vina_log p c).2.1) = false) :
    outputCells (runExtractor p c e) =
      fmtOptStr (parse_vina_log p c).1 ::
        fmtOptStr (parse_vina_log p c).2.1 ::
        fmtOptAff (parse_vina_log p c).2.2 :: List.replicate 14 "NA" := by
  simp only [runExtractor]
  rw [buildResults_not_truthy _ _ _ _ h]
  rfl

/-- A log with an affinity line but no name lines. -/
def w10Lines : List (List Char) := ["   1   -7.5".toList]

/-- Witness for C10's theorem at a concrete input (directory `d` has no
underscore, so both names stay `None` while the affinity is parsed and still
printed as `-7.500`). -/
theorem C10_witness :
    (truthy (parse_vina_log "d/v.log".toList (some w10Lines)).1 &&
      truthy (parse_vina_log "d/v.log".toList (some w10Lines)).2.1) = false ∧
    outputCells (runExtractor "d/v.log".toList (some w10Lines)
        (fun _ => noDesc)) =
      fmtOptStr (parse_vina_log "d/v.log".toList (some w10Lines)).1 ::
        fmtOptStr (parse_vina_log "d/v.log".toList (some w10Lines)).2.1 ::
        fmtOptAff (parse_vina_log "d/v.log".toList (some w10Lines)).2.2 ::
        List.replicate 14 "NA" ∧
    fmtOptAff (parse_vina_log "d/v.log".toList (some w10Lines)).2.2 =
      "-7.500" := by
  have h : (truthy (parse_vina_log "d/v.log".toList (some w10Lines)).1 &&
      truthy (parse_vina_log "d/v.log".toList (some w10Lines)).2.1) = false := by
    decide
  exact ⟨h, C10_skip_derived _ _ _ h, by decide⟩

end Vina
